import Mathlib

/-!
Shallow embedding of `src/openGauss_mcp_server/server.py`.

The server mediates between an MCP transport and an openGauss/PostgreSQL
database.  The database driver (psycopg2) is modelled as an oracle `Db`:
`connectErr` says whether `connect(**config)` raises a driver `Error`, and
`exec q` gives the combined outcome of `cursor.execute(q)` followed by the
fetch of its result set (columns from `cursor.description`, rows already
passed through Python `str`, and `cursor.rowcount`).  Each handler also
returns a `Trace` recording the observable database effects: how many
connections were opened, which SQL strings were executed, and how many
commits and rollbacks were issued — including the commit psycopg2's
connection context manager performs when the `with connect(...)` block is
left cleanly and the rollback it performs when an exception escapes it (see
`Trace`).

The Python `str` methods used by the source (`strip`, `split`, `upper`,
`startswith`, `join`, slicing) are modelled as structural functions over
`String.data`, mirroring Python's semantics for them.
-/

namespace OpenGaussMCP

/-- Characters treated as whitespace by Python `str.strip()` (the ASCII
ones; the source only ever strips SQL text). -/
def isPySpace (c : Char) : Bool :=
  c == ' ' || c == '\t' || c == '\n' || c == '\r' || c == '\x0b' || c == '\x0c'

/-- Python `s.strip()`: remove leading and trailing whitespace. -/
def pyStrip (s : String) : String :=
  String.mk (((s.data.dropWhile isPySpace).reverse.dropWhile isPySpace).reverse)

/-- Python `s.upper()` on ASCII text: uppercase each character. -/
def pyUpper (s : String) : String :=
  String.mk (s.data.map Char.toUpper)

/-- Auxiliary for `pyStartsWith`: is the first list a prefix of the second? -/
def startsWithCh : List Char → List Char → Bool
  | [], _ => true
  | _ :: _, [] => false
  | p :: ps, c :: cs => p == c && startsWithCh ps cs

/-- Python `s.startswith(pre)`. -/
def pyStartsWith (s pre : String) : Bool :=
  startsWithCh pre.data s.data

/-- Python `s[n:]`: drop the first `n` characters. -/
def pySliceFrom (s : String) (n : Nat) : String :=
  String.mk (s.data.drop n)

/-- Auxiliary for `pySplit`: split a character list at a separator,
keeping empty segments, with `acc` the (reversed) current segment. -/
def splitChAux (sep : Char) : List Char → List Char → List String
  | [], acc => [String.mk acc.reverse]
  | c :: cs, acc =>
      if c == sep then String.mk acc.reverse :: splitChAux sep cs []
      else splitChAux sep cs (c :: acc)

/-- Python `s.split(sep)` for a one-character separator: every occurrence of
`sep` separates two (possibly empty) segments. -/
def pySplit (sep : Char) (s : String) : List String :=
  splitChAux sep s.data []

/-- Python `sep.join(parts)`. -/
def pyJoin (sep : String) : List String → String
  | [] => ""
  | [a] => a
  | a :: b :: rest => a ++ sep ++ pyJoin sep (b :: rest)

/-- Value of a nonempty all-digit character list. -/
def digitsVal (l : List Char) : Nat :=
  l.foldl (fun n c => 10 * n + (c.toNat - '0'.toNat)) 0

/-- Python `int()` applied to a string: surrounding whitespace is stripped,
one optional sign is allowed, and the rest must be a nonempty digit
sequence; otherwise `int()` raises `ValueError` (modelled as `none`). -/
def pyInt? (s : String) : Option Int :=
  let t := pyStrip s
  if pyStartsWith t "-" then
    let d := (pySliceFrom t 1).data
    if d ≠ [] && d.all Char.isDigit then some (-(digitsVal d : Int)) else none
  else
    let d := (if pyStartsWith t "+" then pySliceFrom t 1 else t).data
    if d ≠ [] && d.all Char.isDigit then some ((digitsVal d : Int)) else none

/-- Python truthiness of an `os.getenv` / `dict.get` result: `None` and the
empty string are falsy, every other string is truthy. -/
def truthy : Option String → Bool
  | none => false
  | some s => s != ""

/-- The connection-configuration dictionary built by `get_db_config`. -/
structure DbConfig where
  host : String
  port : Int
  user : String
  password : String
  dbname : String
  deriving Repr, DecidableEq

/-- An environment mapping, as seen through `os.getenv`. -/
def Env : Type := String → Option String

/-- `get_db_config` (server.py lines 17–29).  Reads the environment; note the
source reads the host from the variable named `""` (the empty string) with
default `"localhost"`.  `int(...)` on the port is evaluated while the dict is
built, hence before the required-field check; a non-numeric port raises.
The check `not all([user, password, dbname])` uses Python truthiness, so a
missing or empty user, password or dbname raises
`ValueError("Missing required database configuration")`. -/
def get_db_config (env : Env) : Except String DbConfig :=
  match pyInt? ((env "OPENGAUSS_PORT").getD "5432") with
  | none => Except.error "invalid literal for int()"
  | some p =>
    if truthy (env "OPENGAUSS_USER") && truthy (env "OPENGAUSS_PASSWORD")
        && truthy (env "OPENGAUSS_DBNAME") then
      Except.ok
        { host := (env "").getD "localhost"
          port := p
          user := (env "OPENGAUSS_USER").getD ""
          password := (env "OPENGAUSS_PASSWORD").getD ""
          dbname := (env "OPENGAUSS_DBNAME").getD "" }
    else
      Except.error "Missing required database configuration"

/-- Outcome of executing one SQL statement on a cursor: column names from
`cursor.description`, the fetched rows with every cell already stringified by
Python `str`, and the driver's `cursor.rowcount`. -/
structure QueryResult where
  columns : List String
  rows : List (List String)
  rowcount : Int
  deriving Repr, DecidableEq

/-- The database driver oracle (psycopg2): whether `connect` raises, and the
outcome of executing each SQL string.  `Except.error e` models a raised
`psycopg2.Error` with message `e`. -/
structure Db where
  connectErr : Option String
  exec : String → Except String QueryResult

/-- Observable database effects of one handler invocation.  `commits` counts
the `COMMIT`s actually issued to the database.  All three handlers use
`with connect(**config) as conn:`, and psycopg2's connection context manager
commits on clean exit of the block and rolls back when an exception leaves
it; a `conn.commit()` call on a connection with no transaction in progress
(nothing executed since the last commit) issues nothing.  So one `COMMIT` is
counted whenever a statement was executed since the last commit and the
block exits cleanly or `conn.commit()` is called explicitly, and one
rollback whenever a driver error escapes the block after a statement began a
transaction. -/
structure Trace where
  connects : Nat
  queries : List String
  commits : Nat
  rollbacks : Nat
  deriving Repr, DecidableEq

/-- The empty trace: no connection was opened. -/
def Trace.empty : Trace := ⟨0, [], 0, 0⟩

/-- The result-formatting idiom shared by the SELECT branch of `call_tool`
(lines 176–179) and by `read_resource` (lines 77–80):
`"\n".join([",".join(columns)] + [",".join(map(str, row)) for row in rows])`. -/
def formatResult (columns : List String) (rows : List (List String)) : String :=
  pyJoin "\n" (pyJoin "," columns :: rows.map (pyJoin ","))

/-- Catalog query used by `\d`, and by `list_resources`. -/
def listTablesQuery : String :=
  "SELECT tablename FROM pg_tables WHERE schemaname = 'public'"

/-- Catalog query used by `\dt`. -/
def dtQuery : String :=
  "SELECT tablename, tableowner, tablespace FROM pg_tables WHERE schemaname = 'public'"

/-- Catalog query used by `\d+`. -/
def dPlusQuery : String :=
  "SELECT tablename, tableowner, tablespace, hasindexes, hasrules, hastriggers FROM pg_tables WHERE schemaname = 'public'"

/-- Catalog query used by `\du`. -/
def duQuery : String :=
  "SELECT rolname, rolsuper, rolinherit, rolcreaterole, rolcreatedb, rolcanlogin FROM pg_roles"

/-- `handle_meta_command` (server.py lines 108–149).  Exact string match of
the trimmed query against the four directives; each recognized directive runs
its canned catalog query and renders with a fixed header.  Returns the list
of produced text payloads (or the raised driver error) together with the SQL
strings executed on the cursor. -/
def handle_meta_command (db : Db) (query : String) (config : DbConfig) :
    Except String (List String) × List String :=
  let command := pyStrip query
  if command = "\\d" then
    match db.exec listTablesQuery with
    | Except.error e => (Except.error e, [listTablesQuery])
    | Except.ok res =>
        (Except.ok [pyJoin "\n"
          (("Tables_in_" ++ config.dbname) :: res.rows.map (fun row => row.headD ""))],
         [listTablesQuery])
  else if command = "\\dt" then
    match db.exec dtQuery with
    | Except.error e => (Except.error e, [dtQuery])
    | Except.ok res =>
        (Except.ok [formatResult ["Table", "Owner", "Tablespace"] res.rows], [dtQuery])
  else if command = "\\d+" then
    match db.exec dPlusQuery with
    | Except.error e => (Except.error e, [dPlusQuery])
    | Except.ok res =>
        (Except.ok [formatResult
          ["Table", "Owner", "Tablespace", "Has Indexes", "Has Rules", "Has Triggers"]
          res.rows], [dPlusQuery])
  else if command = "\\du" then
    match db.exec duQuery with
    | Except.error e => (Except.error e, [duQuery])
    | Except.ok res =>
        (Except.ok [formatResult
          ["Role", "Superuser", "Inherit", "Create Role", "Create DB", "Can Login"]
          res.rows], [duQuery])
  else
    (Except.ok ["Unsupported meta-command: " ++ command], [])

/-- Result of a `call_tool` invocation: either a normal list of text-content
payloads handed back to the transport, or an exception propagated to it. -/
inductive CallResult where
  | texts : List String → CallResult
  | raised : String → CallResult
  deriving Repr, DecidableEq

/-- `call_tool` (server.py lines 151–188).  `query?` is
`arguments.get("query")`.  Validation failures (unknown tool, falsy query)
raise; afterwards a connection is opened and any driver `Error` during the
`with` block is caught and rendered as the text
`Error executing query: <message>`.  Commit accounting: a recognized
meta-command or a SELECT that executes successfully returns out of the
`with` block cleanly, so the connection context manager issues one `COMMIT`
for the open transaction; an unsupported meta-command executes nothing, so
the exit commit is a no-op; the non-SELECT path issues one `COMMIT` via the
explicit `conn.commit()` (after which the exit commit is a no-op); a failed
statement leaves the block by exception, so the context manager rolls back
instead. -/
def call_tool (env : Env) (db : Db) (name : String) (query? : Option String) :
    CallResult × Trace :=
  match get_db_config env with
  | Except.error e => (CallResult.raised e, Trace.empty)
  | Except.ok config =>
    if name ≠ "execute_sql" then
      (CallResult.raised ("Unknown tool: " ++ name), Trace.empty)
    else if !truthy query? then
      (CallResult.raised "Query is required", Trace.empty)
    else
      let query := query?.getD ""
      match db.connectErr with
      | some e => (CallResult.texts ["Error executing query: " ++ e], ⟨1, [], 0, 0⟩)
      | none =>
        if pyStartsWith (pyStrip query) "\\" then
          match handle_meta_command db query config with
          | (Except.error e, qs) =>
              (CallResult.texts ["Error executing query: " ++ e], ⟨1, qs, 0, 1⟩)
          | (Except.ok ts, qs) =>
              (CallResult.texts ts, ⟨1, qs, if qs.isEmpty then 0 else 1, 0⟩)
        else
          match db.exec query with
          | Except.error e =>
              (CallResult.texts ["Error executing query: " ++ e], ⟨1, [query], 0, 1⟩)
          | Except.ok res =>
            if pyStartsWith (pyUpper (pyStrip query)) "SELECT" then
              (CallResult.texts [formatResult res.columns res.rows], ⟨1, [query], 1, 0⟩)
            else
              (CallResult.texts
                ["Query executed successfully. Rows affected: " ++ toString res.rowcount],
               ⟨1, [query], 1, 0⟩)

/-- Result of a `read_resource` invocation: the rendered text, a propagated
`ValueError`, or a propagated `RuntimeError` wrapping a database error. -/
inductive ReadOutcome where
  | ok : String → ReadOutcome
  | raisedValue : String → ReadOutcome
  | raisedRuntime : String → ReadOutcome
  deriving Repr, DecidableEq

/-- `read_resource` (server.py lines 60–84).  Checks the scheme, then takes
`uri_str[8:].split('/')[0]` as the table name — note the slice drops only 8
characters although `"openGauss://"` has 12 — interpolates it into
`SELECT * FROM <table> LIMIT 100`, and renders the result; a driver `Error`
is re-raised as `RuntimeError("Database error: ...")`.  On success the clean
exit of the `with` block commits the read transaction; on a failed statement
the context manager rolls back. -/
def read_resource (env : Env) (db : Db) (uri_str : String) :
    ReadOutcome × Trace :=
  match get_db_config env with
  | Except.error e => (ReadOutcome.raisedValue e, Trace.empty)
  | Except.ok _ =>
    if !(pyStartsWith uri_str "openGauss://") then
      (ReadOutcome.raisedValue ("Invalid URI scheme: " ++ uri_str), Trace.empty)
    else
      let parts := pySplit '/' (pySliceFrom uri_str 8)
      let table := parts.headD ""
      let q := "SELECT * FROM " ++ table ++ " LIMIT 100"
      match db.connectErr with
      | some e => (ReadOutcome.raisedRuntime ("Database error: " ++ e), ⟨1, [], 0, 0⟩)
      | none =>
        match db.exec q with
        | Except.error e =>
            (ReadOutcome.raisedRuntime ("Database error: " ++ e), ⟨1, [q], 0, 1⟩)
        | Except.ok res =>
            (ReadOutcome.ok (formatResult res.columns res.rows), ⟨1, [q], 1, 0⟩)

/-- An MCP `Resource` as built by `list_resources`. -/
structure ResourceDescriptor where
  uri : String
  name : String
  mimeType : String
  description : String
  deriving Repr, DecidableEq

/-- `list_resources` (server.py lines 34–58).  `get_db_config` runs outside
the `try`, so a configuration error propagates; any driver `Error` inside the
`try` (connect, catalog query, fetch) is caught and an empty list returned.
On success the clean exit of the `with` block commits the catalog-read
transaction; on a failed statement the context manager rolls back. -/
def list_resources (env : Env) (db : Db) :
    Except String (List ResourceDescriptor) × Trace :=
  match get_db_config env with
  | Except.error e => (Except.error e, Trace.empty)
  | Except.ok _ =>
    match db.connectErr with
    | some _ => (Except.ok [], ⟨1, [], 0, 0⟩)
    | none =>
      match db.exec listTablesQuery with
      | Except.error _ => (Except.ok [], ⟨1, [listTablesQuery], 0, 1⟩)
      | Except.ok res =>
          (Except.ok (res.rows.map (fun row =>
            { uri := "openGauss://" ++ row.headD "" ++ "/data"
              name := "Table: " ++ row.headD ""
              mimeType := "text/plain"
              description := "Data in table: " ++ row.headD "" })),
           ⟨1, [listTablesQuery], 1, 0⟩)


/-! ### Splitting / joining lemmas -/

/-- Splitting a separator-free character list yields one segment. -/
theorem splitChAux_no_sep (sep : Char) (cs acc : List Char) (h : sep ∉ cs) :
    splitChAux sep cs acc = [String.mk (acc.reverse ++ cs)] := by
  induction cs generalizing acc with
  | nil => simp [splitChAux]
  | cons c cs ih =>
      have hc : (c == sep) = false := by
        simp only [beq_eq_false_iff_ne, ne_eq]
        intro e
        exact h (e ▸ List.mem_cons_self c cs)
      have hrest : sep ∉ cs := fun hm => h (List.mem_cons_of_mem _ hm)
      simp [splitChAux, hc, ih _ hrest, List.append_assoc]

/-- Splitting past the first separator occurrence peels off one segment. -/
theorem splitChAux_sep_append (sep : Char) (xs ys acc : List Char) (h : sep ∉ xs) :
    splitChAux sep (xs ++ sep :: ys) acc
      = String.mk (acc.reverse ++ xs) :: splitChAux sep ys [] := by
  induction xs generalizing acc with
  | nil => simp [splitChAux]
  | cons x xs ih =>
      have hx : (x == sep) = false := by
        simp only [beq_eq_false_iff_ne, ne_eq]
        intro e
        exact h (e ▸ List.mem_cons_self x xs)
      have hrest : sep ∉ xs := fun hm => h (List.mem_cons_of_mem _ hm)
      simp [splitChAux, hx, ih _ hrest, List.append_assoc]

/-- `pySplit sep` is a left inverse of joining on `sep`, on nonempty lists of
separator-free segments. -/
theorem pySplit_pyJoin (sep : Char) (l : List String) (hne : l ≠ [])
    (h : ∀ s ∈ l, sep ∉ s.data) :
    pySplit sep (pyJoin (String.mk [sep]) l) = l := by
  induction l with
  | nil => exact absurd rfl hne
  | cons a rest ih =>
      cases rest with
      | nil =>
          have := splitChAux_no_sep sep a.data [] (h a (List.mem_cons_self _ _))
          simpa [pySplit, pyJoin] using this
      | cons b rest' =>
          have hd : (pyJoin (String.mk [sep]) (a :: b :: rest')).data
              = a.data ++ sep :: (pyJoin (String.mk [sep]) (b :: rest')).data := by
            simp [pyJoin]
          have hstep := splitChAux_sep_append sep a.data
            (pyJoin (String.mk [sep]) (b :: rest')).data [] (h a (List.mem_cons_self _ _))
          have htail := ih (by simp) (fun s hs => h s (List.mem_cons_of_mem _ hs))
          simp only [pySplit] at htail ⊢
          rw [hd, hstep, htail]
          simp

/-- The first segment of a join is recovered by `pySplit`, whatever follows. -/
theorem pySplit_head (sep : Char) (x : String) (rest : List String)
    (hx : sep ∉ x.data) :
    (pySplit sep (pyJoin (String.mk [sep]) (x :: rest))).headD "" = x := by
  cases rest with
  | nil =>
      have := splitChAux_no_sep sep x.data [] hx
      simp [pySplit, pyJoin, this]
  | cons b rest' =>
      have hd : (pyJoin (String.mk [sep]) (x :: b :: rest')).data
          = x.data ++ sep :: (pyJoin (String.mk [sep]) (b :: rest')).data := by
        simp [pyJoin]
      have hstep := splitChAux_sep_append sep x.data
        (pyJoin (String.mk [sep]) (b :: rest')).data [] hx
      simp only [pySplit]
      rw [hd, hstep]
      rfl

/-- A character of a join comes from the separator or from one segment. -/
theorem mem_data_pyJoin {c : Char} (sep : String) (l : List String)
    (hc : c ∈ (pyJoin sep l).data) :
    c ∈ sep.data ∨ ∃ s ∈ l, c ∈ s.data := by
  induction l with
  | nil => simp [pyJoin] at hc
  | cons a rest ih =>
      cases rest with
      | nil =>
          exact Or.inr ⟨a, List.mem_cons_self _ _, by simpa [pyJoin] using hc⟩
      | cons b rest' =>
          have : c ∈ a.data ∨ c ∈ sep.data ∨ c ∈ (pyJoin sep (b :: rest')).data := by
            simpa [pyJoin, List.mem_append, or_assoc] using hc
          rcases this with h | h | h
          · exact Or.inr ⟨a, List.mem_cons_self _ _, h⟩
          · exact Or.inl h
          · rcases ih h with h' | ⟨s, hs, hcs⟩
            · exact Or.inl h'
            · exact Or.inr ⟨s, List.mem_cons_of_mem _ hs, hcs⟩

/-- The newline-separated lines of a text payload. -/
def linesOf (s : String) : List String := pySplit '\n' s

/-- The comma-separated fields of one line. -/
def fieldsOf (s : String) : List String := pySplit ',' s

/-! ### Concrete fixtures used by closed theorems and witnesses -/

/-- An environment carrying the three required variables. -/
def baseEnv : Env := fun k =>
  if k = "OPENGAUSS_USER" then some "u"
  else if k = "OPENGAUSS_PASSWORD" then some "p"
  else if k = "OPENGAUSS_DBNAME" then some "testdb"
  else none

/-- An environment that additionally sets a host variable, as the repository's
own `test/conftest.py` does via `OPENGAUSS_HOST`. -/
def hostEnv : Env := fun k =>
  if k = "OPENGAUSS_HOST" then some "db.example.com"
  else baseEnv k

/-- A driver that always succeeds, returning a fixed two-column result. -/
def okDb : Db :=
  { connectErr := none
    exec := fun _ => Except.ok { columns := ["a", "b"], rows := [], rowcount := 0 } }

/-- A driver whose `connect` raises. -/
def connectFailDb : Db :=
  { connectErr := some "connection refused"
    exec := fun _ => Except.ok { columns := [], rows := [], rowcount := 0 } }

/-- A driver that connects but raises on every statement. -/
def execFailDb : Db :=
  { connectErr := none
    exec := fun _ => Except.error "syntax error" }

/-- A driver for a successful non-SELECT statement affecting 3 rows. -/
def updateDb : Db :=
  { connectErr := none
    exec := fun _ => Except.ok { columns := [], rows := [], rowcount := 3 } }

/-! ### C1 -/

/-- C1: the claim says that for a URI with the recognized `openGauss://`
scheme, `read_resource` queries the path segment after the scheme, e.g.
table `users` for `openGauss://users/data`.  The code slices off only 8 of
the scheme's 12 characters, so it extracts `s:` and executes
`SELECT * FROM s: LIMIT 100` — the claim fails at this concrete input. -/
theorem c1_read_resource_table_extraction :
    (read_resource baseEnv okDb "openGauss://users/data").2.queries
        = ["SELECT * FROM s: LIMIT 100"]
      ∧ ("SELECT * FROM s: LIMIT 100" : String) ≠ "SELECT * FROM users LIMIT 100" :=
  ⟨by decide, by decide⟩

/-! ### C3 -/

/-- C3: the claim says the configuration's host equals the environment's host
variable.  The code reads `os.getenv("")` — a variable with the empty name —
so with `OPENGAUSS_HOST` set to `db.example.com` (the variable the
repository's own test fixture uses) the returned host is still `localhost`:
the claim fails at this concrete input. -/
theorem c3_get_db_config_host_ignored :
    get_db_config hostEnv
        = Except.ok
            { host := "localhost", port := 5432, user := "u", password := "p",
              dbname := "testdb" }
      ∧ ("localhost" : String) ≠ "db.example.com" :=
  ⟨rfl, by decide⟩

/-! ### C5 -/

/-- C5: a `call_tool` invocation whose name is not `execute_sql`, or whose
`query` argument is missing or empty, raises before any database connection
is opened. -/
theorem c5_validation_raises_before_connect (env : Env) (db : Db)
    (name : String) (query? : Option String)
    (h : name ≠ "execute_sql" ∨ truthy query? = false) :
    (∃ m, (call_tool env db name query?).1 = CallResult.raised m)
      ∧ (call_tool env db name query?).2.connects = 0 := by
  unfold call_tool
  cases hcfg : get_db_config env with
  | error e => exact ⟨⟨e, rfl⟩, rfl⟩
  | ok c =>
      by_cases hn : name = "execute_sql"
      · rcases h with h | h
        · exact absurd hn h
        · subst hn
          simp [h, Trace.empty]
      · simp [hn, Trace.empty]

/-- Witness for C5 at a concrete invocation with an unknown tool name. -/
theorem c5_validation_raises_before_connect_witness :
    (("list_tables" : String) ≠ "execute_sql" ∨ truthy (some "SELECT 1") = false)
      ∧ ((∃ m, (call_tool baseEnv okDb "list_tables" (some "SELECT 1")).1
            = CallResult.raised m)
          ∧ (call_tool baseEnv okDb "list_tables" (some "SELECT 1")).2.connects = 0) :=
  ⟨Or.inl (by decide),
   c5_validation_raises_before_connect baseEnv okDb "list_tables" (some "SELECT 1")
     (Or.inl (by decide))⟩

/-! ### C9 -/

/-- C9: any driver error while listing resources — a failing `connect`, or a
failing catalog query/fetch — makes `list_resources` return the empty list
normally instead of propagating the error. -/
theorem c9_list_resources_swallows_db_errors (env : Env) (db : Db) (c : DbConfig)
    (hcfg : get_db_config env = Except.ok c)
    (herr : db.connectErr ≠ none
        ∨ (db.connectErr = none ∧ ∃ e, db.exec listTablesQuery = Except.error e)) :
    (list_resources env db).1 = Except.ok [] := by
  unfold list_resources
  rw [hcfg]
  rcases herr with h | ⟨hconn, e, hexec⟩
  · cases hc : db.connectErr with
    | none => exact absurd hc h
    | some msg => simp
  · rw [hconn, hexec]

/-- Witness for C9 at a concrete failing driver. -/
theorem c9_list_resources_swallows_db_errors_witness :
    (get_db_config baseEnv
        = Except.ok
            { host := "localhost", port := 5432, user := "u", password := "p",
              dbname := "testdb" })
      ∧ (connectFailDb.connectErr ≠ none
          ∨ (connectFailDb.connectErr = none
              ∧ ∃ e, connectFailDb.exec listTablesQuery = Except.error e))
      ∧ (list_resources baseEnv connectFailDb).1 = Except.ok [] :=
  ⟨rfl, Or.inl (by decide),
   c9_list_resources_swallows_db_errors baseEnv connectFailDb _ rfl (Or.inl (by decide))⟩



/-! ### C2 -/

/-- C2: for a valid `execute_sql` invocation, any driver error — a failing
`connect`, a failing canned meta-command query, or a failing execution of the
given statement — is caught and rendered as the Success-classified text
`Error executing query: <message>`; it is never re-raised. -/
theorem c2_call_tool_db_error_soft (env : Env) (db : Db) (c : DbConfig)
    (query e : String)
    (hcfg : get_db_config env = Except.ok c)
    (hq : query ≠ "")
    (herr : db.connectErr = some e
        ∨ (db.connectErr = none
            ∧ ((pyStartsWith (pyStrip query) "\\" = true
                  ∧ (handle_meta_command db query c).1 = Except.error e)
               ∨ (pyStartsWith (pyStrip query) "\\" = false
                  ∧ db.exec query = Except.error e)))) :
    (call_tool env db "execute_sql" (some query)).1
      = CallResult.texts ["Error executing query: " ++ e] := by
  unfold call_tool
  rw [hcfg]
  have htr : truthy (some query) = true := by
    simpa [truthy] using hq
  rcases herr with hconn | ⟨hconn, hrest⟩
  · simp [htr, hconn]
  · rcases hrest with ⟨hbs, hmeta⟩ | ⟨hbs, hexec⟩
    · rcases hmc : handle_meta_command db query c with ⟨r, qs⟩
      rw [hmc] at hmeta
      simp at hmeta
      subst hmeta
      simp [htr, hconn, hbs, hmc]
    · simp [htr, hconn, hbs, hexec]

/-- Witness for C2 at a concrete invocation whose connection fails. -/
theorem c2_call_tool_db_error_soft_witness :
    (get_db_config baseEnv
        = Except.ok
            { host := "localhost", port := 5432, user := "u", password := "p",
              dbname := "testdb" })
      ∧ (("SELECT 1" : String) ≠ "")
      ∧ connectFailDb.connectErr = some "connection refused"
      ∧ (call_tool baseEnv connectFailDb "execute_sql" (some "SELECT 1")).1
          = CallResult.texts ["Error executing query: " ++ "connection refused"] :=
  ⟨rfl, by decide, rfl,
   c2_call_tool_db_error_soft baseEnv connectFailDb _ "SELECT 1" "connection refused"
     rfl (by decide) (Or.inl rfl)⟩

/-! ### C6 -/

/-- C6: a successfully executed statement whose trimmed text neither starts
with a backslash nor (case-insensitively) with `SELECT` commits the
transaction and returns exactly
`Query executed successfully. Rows affected: <rowcount>`. -/
theorem c6_nonselect_commit_and_message (env : Env) (db : Db) (c : DbConfig)
    (query : String) (res : QueryResult)
    (hcfg : get_db_config env = Except.ok c)
    (hq : query ≠ "")
    (hconn : db.connectErr = none)
    (hmeta : pyStartsWith (pyStrip query) "\\" = false)
    (hexec : db.exec query = Except.ok res)
    (hsel : pyStartsWith (pyUpper (pyStrip query)) "SELECT" = false) :
    (call_tool env db "execute_sql" (some query)).1
        = CallResult.texts
            ["Query executed successfully. Rows affected: " ++ toString res.rowcount]
      ∧ (call_tool env db "execute_sql" (some query)).2.commits = 1 := by
  have htr : truthy (some query) = true := by
    simpa [truthy] using hq
  constructor <;>
    · unfold call_tool
      rw [hcfg]
      simp [htr, hconn, hmeta, hexec, hsel]

/-- Witness for C6 at a concrete `UPDATE` statement affecting 3 rows. -/
theorem c6_nonselect_commit_and_message_witness :
    (get_db_config baseEnv
        = Except.ok
            { host := "localhost", port := 5432, user := "u", password := "p",
              dbname := "testdb" })
      ∧ (("UPDATE t SET x = 1" : String) ≠ "")
      ∧ updateDb.connectErr = none
      ∧ pyStartsWith (pyStrip "UPDATE t SET x = 1") "\\" = false
      ∧ updateDb.exec "UPDATE t SET x = 1"
          = Except.ok { columns := [], rows := [], rowcount := 3 }
      ∧ pyStartsWith (pyUpper (pyStrip "UPDATE t SET x = 1")) "SELECT" = false
      ∧ (call_tool baseEnv updateDb "execute_sql" (some "UPDATE t SET x = 1")).1
          = CallResult.texts
              ["Query executed successfully. Rows affected: "
                ++ toString (3 : Int)]
      ∧ (call_tool baseEnv updateDb "execute_sql" (some "UPDATE t SET x = 1")).2.commits
          = 1 :=
  ⟨rfl, by decide, rfl, by decide, rfl, by decide,
   (c6_nonselect_commit_and_message baseEnv updateDb _ "UPDATE t SET x = 1"
      { columns := [], rows := [], rowcount := 3 }
      rfl (by decide) rfl (by decide) rfl (by decide)).1,
   (c6_nonselect_commit_and_message baseEnv updateDb _ "UPDATE t SET x = 1"
      { columns := [], rows := [], rowcount := 3 }
      rfl (by decide) rfl (by decide) rfl (by decide)).2⟩

/-! ### C8 -/

/-- C8: a query whose trimmed text starts with a backslash but is none of the
four recognized directives yields the Success-classified text
`Unsupported meta-command: <trimmed text>`. -/
theorem c8_unsupported_meta_command (env : Env) (db : Db) (c : DbConfig)
    (query : String)
    (hcfg : get_db_config env = Except.ok c)
    (hq : query ≠ "")
    (hconn : db.connectErr = none)
    (hbs : pyStartsWith (pyStrip query) "\\" = true)
    (h1 : pyStrip query ≠ "\\d") (h2 : pyStrip query ≠ "\\dt")
    (h3 : pyStrip query ≠ "\\d+") (h4 : pyStrip query ≠ "\\du") :
    (call_tool env db "execute_sql" (some query)).1
      = CallResult.texts ["Unsupported meta-command: " ++ pyStrip query] := by
  have htr : truthy (some query) = true := by
    simpa [truthy] using hq
  unfold call_tool
  rw [hcfg]
  simp [htr, hconn, hbs, handle_meta_command, h1, h2, h3, h4]

/-- Witness for C8 at the concrete unrecognized directive `\z`. -/
theorem c8_unsupported_meta_command_witness :
    (get_db_config baseEnv
        = Except.ok
            { host := "localhost", port := 5432, user := "u", password := "p",
              dbname := "testdb" })
      ∧ ((" \\z " : String) ≠ "")
      ∧ okDb.connectErr = none
      ∧ pyStartsWith (pyStrip " \\z ") "\\" = true
      ∧ pyStrip " \\z " ≠ "\\d" ∧ pyStrip " \\z " ≠ "\\dt"
      ∧ pyStrip " \\z " ≠ "\\d+" ∧ pyStrip " \\z " ≠ "\\du"
      ∧ (call_tool baseEnv okDb "execute_sql" (some " \\z ")).1
          = CallResult.texts ["Unsupported meta-command: " ++ pyStrip " \\z "] :=
  ⟨rfl, by decide, rfl, by decide, by decide, by decide, by decide, by decide,
   c8_unsupported_meta_command baseEnv okDb _ " \\z " rfl (by decide) rfl
     (by decide) (by decide) (by decide) (by decide) (by decide)⟩



/-! ### C7 -/

/-- The configuration produced by `baseEnv`. -/
def cfgBase : DbConfig :=
  { host := "localhost", port := 5432, user := "u", password := "p", dbname := "testdb" }

/-- A driver serving fixed catalog rows, with native column names that differ
from the fixed headers the interpreter is supposed to print. -/
def catalogDb : Db :=
  { connectErr := none
    exec := fun q =>
      if q = listTablesQuery then
        Except.ok { columns := ["tablename"], rows := [["t1"], ["t2"]], rowcount := -1 }
      else if q = dtQuery then
        Except.ok { columns := ["tablename", "tableowner", "tablespace"],
                    rows := [["t1", "omm", "None"]], rowcount := -1 }
      else if q = dPlusQuery then
        Except.ok { columns := ["tablename", "tableowner", "tablespace",
                                "hasindexes", "hasrules", "hastriggers"],
                    rows := [["t1", "omm", "None", "True", "False", "False"]],
                    rowcount := -1 }
      else if q = duQuery then
        Except.ok { columns := ["rolname", "rolsuper", "rolinherit",
                                "rolcreaterole", "rolcreatedb", "rolcanlogin"],
                    rows := [["omm", "True", "True", "True", "True", "True"]],
                    rowcount := -1 }
      else Except.error "unexpected query" }

/-- C7: for each of the four recognized meta-commands (matched by exact
equality against the trimmed query) the first newline-separated line of the
produced text is the fixed header of §4.4 — `Tables_in_<dbname>` for `\d`,
and the fixed comma-joined column lists for `\dt`, `\d+` and `\du` — whatever
column names the database reports. -/
theorem c7_meta_command_headers (db : Db) (c : DbConfig)
    (r1 r2 r3 r4 : QueryResult)
    (h1 : db.exec listTablesQuery = Except.ok r1)
    (h2 : db.exec dtQuery = Except.ok r2)
    (h3 : db.exec dPlusQuery = Except.ok r3)
    (h4 : db.exec duQuery = Except.ok r4)
    (hdb : '\n' ∉ ("Tables_in_" ++ c.dbname).data) :
    (∃ t, (handle_meta_command db "\\d" c).1 = Except.ok [t]
        ∧ (linesOf t).headD "" = "Tables_in_" ++ c.dbname)
    ∧ (∃ t, (handle_meta_command db "\\dt" c).1 = Except.ok [t]
        ∧ (linesOf t).headD "" = "Table,Owner,Tablespace")
    ∧ (∃ t, (handle_meta_command db "\\d+" c).1 = Except.ok [t]
        ∧ (linesOf t).headD ""
            = "Table,Owner,Tablespace,Has Indexes,Has Rules,Has Triggers")
    ∧ (∃ t, (handle_meta_command db "\\du" c).1 = Except.ok [t]
        ∧ (linesOf t).headD "" = "Role,Superuser,Inherit,Create Role,Create DB,Can Login") := by
  refine ⟨⟨pyJoin "\n" (("Tables_in_" ++ c.dbname) :: r1.rows.map (fun row => row.headD "")),
      ?_, ?_⟩,
    ⟨formatResult ["Table", "Owner", "Tablespace"] r2.rows, ?_, ?_⟩,
    ⟨formatResult ["Table", "Owner", "Tablespace", "Has Indexes", "Has Rules",
        "Has Triggers"] r3.rows, ?_, ?_⟩,
    ⟨formatResult ["Role", "Superuser", "Inherit", "Create Role", "Create DB",
        "Can Login"] r4.rows, ?_, ?_⟩⟩
  · simp [handle_meta_command, h1, (by decide : pyStrip "\\d" = "\\d")]
  · simpa [linesOf] using
      pySplit_head '\n' ("Tables_in_" ++ c.dbname)
        (r1.rows.map (fun row => row.headD "")) hdb
  · simp [handle_meta_command, h2, (by decide : pyStrip "\\dt" = "\\dt")]
  · simpa [linesOf, formatResult] using
      pySplit_head '\n' (pyJoin "," ["Table", "Owner", "Tablespace"])
        (r2.rows.map (pyJoin ",")) (by decide)
  · simp [handle_meta_command, h3, (by decide : pyStrip "\\d+" = "\\d+")]
  · simpa [linesOf, formatResult] using
      pySplit_head '\n'
        (pyJoin "," ["Table", "Owner", "Tablespace", "Has Indexes", "Has Rules",
          "Has Triggers"])
        (r3.rows.map (pyJoin ",")) (by decide)
  · simp [handle_meta_command, h4, (by decide : pyStrip "\\du" = "\\du")]
  · simpa [linesOf, formatResult] using
      pySplit_head '\n'
        (pyJoin "," ["Role", "Superuser", "Inherit", "Create Role", "Create DB",
          "Can Login"])
        (r4.rows.map (pyJoin ",")) (by decide)

/-- Witness for C7 at a concrete catalog driver. -/
theorem c7_meta_command_headers_witness :
    (catalogDb.exec listTablesQuery
        = Except.ok { columns := ["tablename"], rows := [["t1"], ["t2"]], rowcount := -1 })
      ∧ ('\n' ∉ ("Tables_in_" ++ cfgBase.dbname).data)
      ∧ ((∃ t, (handle_meta_command catalogDb "\\d" cfgBase).1 = Except.ok [t]
            ∧ (linesOf t).headD "" = "Tables_in_" ++ cfgBase.dbname)
        ∧ (∃ t, (handle_meta_command catalogDb "\\dt" cfgBase).1 = Except.ok [t]
            ∧ (linesOf t).headD "" = "Table,Owner,Tablespace")
        ∧ (∃ t, (handle_meta_command catalogDb "\\d+" cfgBase).1 = Except.ok [t]
            ∧ (linesOf t).headD ""
                = "Table,Owner,Tablespace,Has Indexes,Has Rules,Has Triggers")
        ∧ (∃ t, (handle_meta_command catalogDb "\\du" cfgBase).1 = Except.ok [t]
            ∧ (linesOf t).headD ""
                = "Role,Superuser,Inherit,Create Role,Create DB,Can Login")) :=
  ⟨rfl, by decide,
   c7_meta_command_headers catalogDb cfgBase _ _ _ _ rfl rfl rfl rfl (by decide)⟩

/-! ### C4 -/

/-- A driver returning one row whose single stringified cell embeds a
newline, as a text column legitimately can. -/
def newlineCellDb : Db :=
  { connectErr := none
    exec := fun _ =>
      Except.ok { columns := ["a"], rows := [["x\ny"]], rowcount := -1 } }

/-- C4, counterexample: the claim promises exactly N+1 newline-separated
lines and exactly C comma-separated fields per data line for every SELECT
result.  A result with N = 1, C = 1 whose cell stringifies with an embedded
newline produces 3 lines, not 2; and in the degenerate zero-column case a
data line still splits into one field, not 0. -/
theorem c4_counterexample_embedded_delimiters :
    (call_tool baseEnv newlineCellDb "execute_sql" (some "SELECT v FROM t")).1
        = CallResult.texts [formatResult ["a"] [["x\ny"]]]
      ∧ (linesOf (formatResult ["a"] [["x\ny"]])).length ≠ [["x\ny"]].length + 1
      ∧ (linesOf (formatResult [] [[]])).tail = [""]
      ∧ (fieldsOf "").length ≠ ([] : List String).length :=
  ⟨by decide, by decide, by decide, by decide⟩

/-- C4, amended: provided there is at least one column, every row has exactly
as many cells as there are columns, and no column name or stringified cell
embeds a newline or comma, the formatted text has exactly N+1
newline-separated lines and every data line has exactly C comma-separated
fields; and formatting an empty row set with columns `a`, `b` yields exactly
`a,b`. -/
theorem c4_format_shape (columns : List String) (rows : List (List String))
    (hcols : columns ≠ [])
    (hcoldelim : ∀ s ∈ columns, '\n' ∉ s.data ∧ ',' ∉ s.data)
    (hrows : ∀ r ∈ rows,
        r.length = columns.length ∧ ∀ s ∈ r, '\n' ∉ s.data ∧ ',' ∉ s.data) :
    (linesOf (formatResult columns rows)).length = rows.length + 1
      ∧ (∀ line ∈ (linesOf (formatResult columns rows)).tail,
          (fieldsOf line).length = columns.length)
      ∧ formatResult ["a", "b"] [] = "a,b" := by
  have hnl : ∀ s ∈ (pyJoin "," columns :: rows.map (pyJoin ",")), '\n' ∉ s.data := by
    intro s hs
    rcases List.mem_cons.mp hs with rfl | hs
    · intro hmem
      rcases mem_data_pyJoin "," columns hmem with h | ⟨t, ht, hct⟩
      · exact absurd h (by decide)
      · exact (hcoldelim t ht).1 hct
    · rcases List.mem_map.mp hs with ⟨r, hr, rfl⟩
      intro hmem
      rcases mem_data_pyJoin "," r hmem with h | ⟨t, ht, hct⟩
      · exact absurd h (by decide)
      · exact ((hrows r hr).2 t ht).1 hct
  have hsplit : linesOf (formatResult columns rows)
      = pyJoin "," columns :: rows.map (pyJoin ",") := by
    simpa [linesOf, formatResult] using
      pySplit_pyJoin '\n' (pyJoin "," columns :: rows.map (pyJoin ","))
        (by simp) hnl
  refine ⟨?_, ?_, rfl⟩
  · rw [hsplit]
    simp
  · rw [hsplit]
    intro line hline
    simp only [List.tail_cons] at hline
    rcases List.mem_map.mp hline with ⟨r, hr, rfl⟩
    have hrne : r ≠ [] := by
      intro h0
      have hlen := (hrows r hr).1
      rw [h0] at hlen
      exact hcols (List.length_eq_zero.mp hlen.symm)
    have hfields : fieldsOf (pyJoin "," r) = r := by
      simpa [fieldsOf] using
        pySplit_pyJoin ',' r hrne (fun s hs => ((hrows r hr).2 s hs).2)
    rw [hfields, (hrows r hr).1]

/-- Witness for the amended C4 at a concrete two-column, two-row result. -/
theorem c4_format_shape_witness :
    ((["a", "b"] : List String) ≠ [])
      ∧ (∀ s ∈ (["a", "b"] : List String), '\n' ∉ s.data ∧ ',' ∉ s.data)
      ∧ (∀ r ∈ ([["1", "2"], ["3", "4"]] : List (List String)),
          r.length = (["a", "b"] : List String).length
            ∧ ∀ s ∈ r, '\n' ∉ s.data ∧ ',' ∉ s.data)
      ∧ ((linesOf (formatResult ["a", "b"] [["1", "2"], ["3", "4"]])).length
            = [["1", "2"], ["3", "4"]].length + 1
          ∧ (∀ line ∈ (linesOf (formatResult ["a", "b"] [["1", "2"], ["3", "4"]])).tail,
              (fieldsOf line).length = (["a", "b"] : List String).length)
          ∧ formatResult ["a", "b"] [] = "a,b") :=
  ⟨by decide, by decide, by decide,
   c4_format_shape ["a", "b"] [["1", "2"], ["3", "4"]] (by decide) (by decide) (by decide)⟩

/-! ### C10 -/

/-- C10, counterexample: the claim says that for a query whose trimmed text
starts with a backslash, or whose trimmed uppercased text starts with
`SELECT`, no commit is ever issued.  But every handler runs inside
`with connect(**config) as conn:`, and psycopg2's connection context manager
commits the open transaction when the block exits cleanly — so a successful
`SELECT 1` and a successful `\d` each issue one real `COMMIT`. -/
theorem c10_counterexample_select_and_meta_commit :
    pyStartsWith (pyUpper (pyStrip "SELECT 1")) "SELECT" = true
      ∧ (call_tool baseEnv okDb "execute_sql" (some "SELECT 1")).2.commits = 1
      ∧ pyStartsWith (pyStrip "\\d") "\\" = true
      ∧ (call_tool baseEnv catalogDb "execute_sql" (some "\\d")).2.commits = 1
      ∧ (1 : Nat) ≠ 0 :=
  ⟨by decide, by decide, by decide, by decide, by decide⟩

/-- The exact condition under which one `COMMIT` reaches the database during
a `call_tool` request: a valid `execute_sql` invocation with a good
configuration and connection whose query executes a statement successfully —
explicitly committed on the non-SELECT path, committed by the connection
context manager's clean-exit commit on the SELECT and recognized
meta-command paths.  Unsupported meta-commands execute nothing (the exit
commit is then a no-op) and failed statements leave the block by exception
(the context manager rolls back), so neither commits. -/
def commitIssued (env : Env) (db : Db) (name : String) (query? : Option String) :
    Bool :=
  match get_db_config env with
  | Except.error _ => false
  | Except.ok c =>
    name == "execute_sql" && truthy query? && db.connectErr.isNone
      && (let q := query?.getD ""
          if pyStartsWith (pyStrip q) "\\" then
            match handle_meta_command db q c with
            | (Except.ok _, qs) => !qs.isEmpty
            | (Except.error _, _) => false
          else
            match db.exec q with
            | Except.ok _ => true
            | Except.error _ => false)

/-- C10, amended: the explicit `conn.commit()` closes the transaction only
on the successful non-SELECT, non-meta-command path, but the connection
context manager additionally commits on every clean exit of the `with`
block, so `call_tool` issues exactly one `COMMIT` whenever a statement was
executed successfully — whether non-SELECT, SELECT, or a recognized
meta-command — and none on validation failures, unsupported meta-commands
(which execute nothing), or error paths (which roll back). -/
theorem c10_commit_exactly_when_statement_succeeds (env : Env) (db : Db)
    (name : String) (query? : Option String) :
    (call_tool env db name query?).2.commits
      = if commitIssued env db name query? then 1 else 0 := by
  unfold call_tool commitIssued
  cases hcfg : get_db_config env with
  | error e => simp [Trace.empty]
  | ok c =>
      by_cases hn : name = "execute_sql"
      · subst hn
        cases htr : truthy query? with
        | false => simp [htr, Trace.empty]
        | true =>
            cases hconn : db.connectErr with
            | some e => simp [htr, hconn]
            | none =>
                cases hbs : pyStartsWith (pyStrip (query?.getD "")) "\\" with
                | true =>
                    rcases hmc : handle_meta_command db (query?.getD "") c with ⟨r, qs⟩
                    cases r with
                    | error e => simp [htr, hconn, hbs, hmc]
                    | ok ts => cases qs <;> simp [htr, hconn, hbs, hmc]
                | false =>
                    cases hexec : db.exec (query?.getD "") with
                    | error e => simp [htr, hconn, hbs, hexec]
                    | ok res =>
                        cases hsel : pyStartsWith (pyUpper (pyStrip (query?.getD ""))) "SELECT" <;>
                          simp [htr, hconn, hbs, hexec, hsel]
      · simp [hn, Trace.empty]


end OpenGaussMCP
